import Mathlib

/-!
# Verification of the skillkit core (skills-use repository)

Shallow embedding of `src/skillkit/core/scripts.py`, `manager.py` and
`discovery.py`, together with proofs settling the specification claims.

Modelling conventions:
* An absolute POSIX path is a list of its components (`List String`);
  the empty list is the filesystem root `/`.  Rendering such a path to
  text (Python `str(Path(...))`) yields a list of characters.
* Byte strings (captured stdout/stderr, their UTF-8 sizes) are lists of
  bytes (`List Nat`); Python's `len(s.encode('utf-8'))` is the list
  length.  `decode('utf-8', errors='ignore')` may additionally drop up
  to three bytes of a character cut by byte-level truncation; the byte
  model keeps those bytes, which only affects claims by making the
  modelled stream at most longer, never shorter, than the real one.
* Filesystem-dependent primitives (`os.path.realpath`, `Path.is_file`,
  `Path.is_symlink`, `stat`, `shutil.which`) are fields of an explicit
  `FS` record, so the functions stay pure while the control flow is a
  direct translation of the Python source.
-/

namespace Skillkit

/-- Characters of `str(p)` for an absolute POSIX path given as its list of
components (the root `/` for the empty list): `/c₁/c₂/…/cₙ`. -/
def pathChars (p : List String) : List Char :=
  if p = [] then ['/'] else (p.map (fun c => '/' :: c.data)).flatten

/-- The string form of an absolute path, used when building error messages. -/
def pstr (p : List String) : String :=
  String.mk (pathChars p)

/-- `os.path.commonpath` restricted to two absolute POSIX paths: the longest
common component prefix (the Windows different-drive `ValueError` cannot occur
for two absolute POSIX paths and is not modelled). -/
def commonpath : List String → List String → List String
  | a :: as, b :: bs => if a = b then a :: commonpath as bs else []
  | _, _ => []

/-- Python `str.startswith`: `startsWith s p` is true when the character list
`p` is an initial segment of `s`. -/
def startsWith : List Char → List Char → Bool
  | _, [] => true
  | [], _ :: _ => false
  | c :: s, p :: ps => c == p && startsWith s ps

/-- The exception classes of `skillkit/core/exceptions.py` that the script
executor can raise, each carrying its message; `toolRestriction` additionally
carries the `skill_name` and `allowed_tools` attributes of
`ToolRestrictionError`. -/
inductive ExecError where
  | pathSecurity (message : String)
  | fileNotFound (message : String)
  | scriptPermission (message : String)
  | interpreterNotFound (message : String)
  | argumentSerialization (message : String)
  | argumentSize (message : String)
  | toolRestriction (message : String) (skillName : String) (allowedTools : List String)
  deriving Repr, DecidableEq

/-- The filesystem primitives consulted by `ScriptExecutor`.  `realpath p`
is the canonical resolution of `p` (`os.path.realpath`); `none` models the
`OSError`/`RuntimeError` branch (broken link or symlink loop). -/
structure FS where
  realpath : List String → Option (List String)
  isSymlink : List String → Bool
  isFile : List String → Bool
  fileMode : List String → Nat
  whichOk : String → Bool

/-- A candidate script path: `Path.is_absolute()` distinguishes the cases. -/
inductive ScriptPath where
  | absolute (components : List String)
  | relative (components : List String)
  deriving Repr, DecidableEq

/-- The candidate handed to `os.path.realpath` by `_validate_script_path`:
an absolute path is used as given, a relative one is joined to the skill
base directory. -/
def candidatePath (script_path : ScriptPath) (skill_base_dir : List String) :
    List String :=
  match script_path with
  | .absolute c => c
  | .relative c => skill_base_dir ++ c

/-- `ScriptExecutor._validate_script_path` (scripts.py:708-800).  The
`skill_base_dir` argument is the canonical base directory: the source first
applies `os.path.realpath` to it, which does not raise, so theorems quantify
over the already-canonical result. -/
def validate_script_path (fs : FS) (script_path : ScriptPath)
    (skill_base_dir : List String) : Except ExecError (List String) :=
  let sp : List String := candidatePath script_path skill_base_dir
  let is_symlink := fs.isSymlink sp
  match fs.realpath sp with
  | none =>
      .error (.pathSecurity ("Invalid script path or symlink loop: " ++ pstr sp))
  | some resolved_path =>
      if commonpath skill_base_dir resolved_path ≠ skill_base_dir then
        .error (.pathSecurity ("Script path escapes skill directory: " ++ pstr sp
          ++ " -> " ++ pstr resolved_path))
      else if ¬ startsWith (pathChars resolved_path)
          (pathChars skill_base_dir ++ ['/']) then
        .error (.pathSecurity ("Script path outside skill directory: "
          ++ pstr resolved_path))
      else if is_symlink ∧ ¬ startsWith (pathChars resolved_path)
          (pathChars skill_base_dir) then
        .error (.pathSecurity ("Symlink points outside skill directory: "
          ++ pstr sp ++ " -> " ++ pstr resolved_path))
      else if ¬ fs.isFile resolved_path then
        .error (.fileNotFound ("Script not found: " ++ pstr resolved_path))
      else
        .ok resolved_path

/-- Modelled from the spec: `SkillMetadata` (§3 of the spec; `models.py` is
not in the source tree).  Fields: `name`, `description`, absolute
`skill_path` to the manifest file, optional `version`, and `allowed_tools`
where an empty list means unrestricted. -/
structure SkillMetadata where
  name : String
  description : String
  skill_path : List String
  version : Option String := none
  allowed_tools : List String := []
  deriving Repr, DecidableEq

/-- Byte strings: captured stdout/stderr and UTF-8 encodings. -/
abbrev Bytes := List Nat

/-- UTF-8 encoding of one code point. -/
def charUtf8 (c : Char) : Bytes :=
  let n := c.toNat
  if n < 128 then [n]
  else if n < 2048 then [192 + n / 64, 128 + n % 64]
  else if n < 65536 then [224 + n / 4096, 128 + n / 64 % 64, 128 + n % 64]
  else [240 + n / 262144, 128 + n / 4096 % 64, 128 + n / 64 % 64, 128 + n % 64]

/-- UTF-8 bytes of a string (Python `s.encode('utf-8')`). -/
def strBytes (s : String) : Bytes :=
  (s.data.map charUtf8).flatten

/-- `INTERPRETER_MAP` from scripts.py:62-71. -/
def INTERPRETER_MAP : List (String × String) :=
  [(".py", "python3"), (".sh", "bash"), (".js", "node"), (".rb", "ruby"),
   (".pl", "perl"), (".bat", "cmd"), (".cmd", "cmd"), (".ps1", "powershell")]

/-- `PurePath.suffix` on a file name: the extension from the last dot,
empty when the dot is the first character or the name has no dot. -/
def nameSuffix (name : List Char) : String :=
  match (name.reverse.takeWhile (fun c => c ≠ '.')) with
  | ext =>
      if ext.length + 1 < name.length ∧ ext.length < name.length then
        String.mk ('.' :: ext.reverse)
      else ""

/-- `Path.suffix.lower()` of the final component of a path (ASCII lowering;
the extensions in `INTERPRETER_MAP` are all ASCII). -/
def pathSuffixLower (p : List String) : String :=
  match p.getLast? with
  | none => ""
  | some name => String.mk ((nameSuffix name.data).data.map Char.toLower)

/-- `ScriptExecutor._check_permissions` (scripts.py:802-846), POSIX branch
(`os.name == 'nt'` early return not modelled).  `S_ISUID = 0o4000`,
`S_ISGID = 0o2000`.  The message's octal mode and recommendation text are
summarised by the path. -/
def check_permissions (fs : FS) (script_path : List String) :
    Except ExecError Unit :=
  let mode := fs.fileMode script_path
  let has_setuid := mode.land 2048 ≠ 0
  let has_setgid := mode.land 1024 ≠ 0
  if has_setuid ∨ has_setgid then
    .error (.scriptPermission ("Script has dangerous permissions: " ++ pstr script_path))
  else
    .ok ()

/-- `ScriptExecutor._resolve_interpreter` (scripts.py:848-882). -/
def resolve_interpreter (fs : FS) (script_path : List String) :
    Except ExecError String :=
  let ext := pathSuffixLower script_path
  match INTERPRETER_MAP.lookup ext with
  | none =>
      .error (.interpreterNotFound ("No interpreter mapping for extension: " ++ ext))
  | some interpreter =>
      if ¬ fs.whichOk interpreter then
        .error (.interpreterNotFound ("Interpreter '" ++ interpreter
          ++ "' not found in PATH"))
      else
        .ok interpreter

/-- `ScriptExecutor._serialize_arguments` (scripts.py:884-913).  `json.dumps`
is a Python collaborator: its outcome is the input here, `none` modelling the
`TypeError`/`ValueError` branch, `some s` the serialized document. -/
def serialize_arguments (arguments_json : Option String) :
    Except ExecError String :=
  match arguments_json with
  | none => .error (.argumentSerialization "Cannot serialize arguments to JSON")
  | some serialized =>
      if (strBytes serialized).length > 10000000 then
        .error (.argumentSize ("Arguments too large: "
          ++ toString (strBytes serialized).length ++ " bytes (max 10MB)"))
      else
        .ok serialized

/-- `ScriptExecutor._build_environment` (scripts.py:915-950): the caller's
environment extended with the four injected variables (later entries shadow
earlier ones under lookup, matching dict update). -/
def build_environment (osEnviron : List (String × String))
    (skill_metadata : SkillMetadata) (skill_base_dir : List String)
    (skillkitVersion : String) : List (String × String) :=
  [("SKILL_VERSION", skill_metadata.version.getD "0.0.0"),
   ("SKILLKIT_VERSION", skillkitVersion),
   ("SKILL_BASE_DIR", pstr skill_base_dir),
   ("SKILL_NAME", skill_metadata.name)] ++ osEnviron

/-- Linux signal names for `signal.Signals(n).name`; numbers outside the
table raise `ValueError` in Python, handled by the caller. -/
def signalName? (n : Int) : Option String :=
  [(1, "SIGHUP"), (2, "SIGINT"), (3, "SIGQUIT"), (4, "SIGILL"), (5, "SIGTRAP"),
   (6, "SIGABRT"), (7, "SIGBUS"), (8, "SIGFPE"), (9, "SIGKILL"), (10, "SIGUSR1"),
   (11, "SIGSEGV"), (12, "SIGUSR2"), (13, "SIGPIPE"), (14, "SIGALRM"),
   (15, "SIGTERM"), (16, "SIGSTKFLT"), (17, "SIGCHLD"), (18, "SIGCONT"),
   (19, "SIGSTOP"), (20, "SIGTSTP"), (21, "SIGTTIN"), (22, "SIGTTOU"),
   (23, "SIGURG"), (24, "SIGXCPU"), (25, "SIGXFSZ"), (26, "SIGVTALRM"),
   (27, "SIGPROF"), (28, "SIGWINCH"), (29, "SIGIO"), (30, "SIGPWR"),
   (31, "SIGSYS")].lookup n

/-- The observable behaviour of the spawned process: either `subprocess.run`
returned (with a return code and captured streams), or it raised
`subprocess.TimeoutExpired` carrying the partial output collected before the
kill (`None` when nothing was captured). -/
inductive SubprocessOutcome where
  | completed (returncode : Int) (stdout stderr : Bytes)
  | timedOut (stdout stderr : Option Bytes)
  deriving Repr, DecidableEq

/-- `ScriptExecutor._execute_subprocess` (scripts.py:952-1026): tuple of
`(exit_code, stdout, stderr, signal_name, signal_number)`.  On timeout the
exit code is forced to 124 and `"\nTimeout"` is appended to stderr. -/
def execute_subprocess (outcome : SubprocessOutcome) :
    Int × Bytes × Bytes × Option String × Option Int :=
  match outcome with
  | .completed returncode stdout stderr =>
      if returncode < 0 then
        let signal_number := -returncode
        let signal_name :=
          match signalName? signal_number with
          | some n => n
          | none => "UNKNOWN_SIGNAL_" ++ toString signal_number
        (returncode, stdout, stderr, some signal_name, some signal_number)
      else
        (returncode, stdout, stderr, none, none)
  | .timedOut pstdout pstderr =>
      (124, pstdout.getD [], (pstderr.getD []) ++ strBytes "\nTimeout", none, none)

/-- Bytes of the stdout truncation marker appended by
`_handle_output_truncation`. -/
def OUTPUT_TRUNC_MARKER : Bytes :=
  strBytes "\n[... OUTPUT TRUNCATED: exceeded 10MB limit ...]"

/-- Bytes of the stderr truncation marker. -/
def STDERR_TRUNC_MARKER : Bytes :=
  strBytes "\n[... STDERR TRUNCATED: exceeded 10MB limit ...]"

/-- `ScriptExecutor._handle_output_truncation` (scripts.py:1028-1058):
each stream is independently cut to `max_output_size` bytes and marked when
its encoded size exceeds the limit. -/
def handle_output_truncation (max_output_size : Nat) (stdout stderr : Bytes) :
    Bytes × Bytes × Bool × Bool :=
  let stdout_truncated := stdout.length > max_output_size
  let stderr_truncated := stderr.length > max_output_size
  (if stdout_truncated then stdout.take max_output_size ++ OUTPUT_TRUNC_MARKER
     else stdout,
   if stderr_truncated then stderr.take max_output_size ++ STDERR_TRUNC_MARKER
     else stderr,
   stdout_truncated, stderr_truncated)

/-- `ScriptExecutor._detect_signal` (scripts.py:1060-1079). -/
def detect_signal (signal_name : Option String) (signal_number : Option Int) :
    Option String × Option Int :=
  match signal_name with
  | some n => (some n, signal_number)
  | none => (none, none)

/-- `ScriptExecutionResult` (scripts.py:145-240).  `execution_time_ms`
(a wall-clock float) is not modelled. -/
structure ScriptExecutionResult where
  stdout : Bytes
  stderr : Bytes
  exit_code : Int
  script_path : List String
  signal : Option String := none
  signal_number : Option Int := none
  stdout_truncated : Bool := false
  stderr_truncated : Bool := false
  deriving Repr, DecidableEq

/-- `'Timeout' in self.stderr`: contiguous-substring test on bytes. -/
def containsSub : Bytes → Bytes → Bool
  | s, sub =>
    if sub.isPrefixOf s then true
    else
      match s with
      | [] => false
      | _ :: t => containsSub t sub

/-- UTF-8 bytes of the literal `"Timeout"`. -/
def timeoutBytes : Bytes := strBytes "Timeout"

/-- `ScriptExecutionResult.success` (scripts.py:242-251). -/
def ScriptExecutionResult.success (r : ScriptExecutionResult) : Bool :=
  r.exit_code == 0

/-- `ScriptExecutionResult.timeout` (scripts.py:253-262). -/
def ScriptExecutionResult.timedout (r : ScriptExecutionResult) : Bool :=
  r.exit_code == 124 && containsSub r.stderr timeoutBytes

/-- `ScriptExecutionResult.signaled` (scripts.py:264-273). -/
def ScriptExecutionResult.signaled (r : ScriptExecutionResult) : Bool :=
  r.signal.isSome

/-- `ScriptExecutor.__init__` configuration (scripts.py:691-706). -/
structure ScriptExecutor where
  timeout : Nat := 30
  max_output_size : Nat := 10000000
  use_cache : Bool := false
  deriving Repr, DecidableEq

/-- `ScriptExecutor.execute` (scripts.py:1081-1210): validate path → check
permissions → resolve interpreter → serialize arguments → build environment →
run the subprocess → truncate output → classify signal → build the result.
The spawned process's behaviour (including whether the wall-clock timeout of
`cfg.timeout` expired) is the `outcome` argument; audit logging and the
timing float are side effects not modelled.  Note: the source contains no
tool-restriction step (`skill_metadata.allowed_tools` is never consulted). -/
def execute (cfg : ScriptExecutor) (fs : FS) (script_path : ScriptPath)
    (arguments_json : Option String) (skill_base_dir : List String)
    (skill_metadata : SkillMetadata) (osEnviron : List (String × String))
    (skillkitVersion : String) (outcome : SubprocessOutcome) :
    Except ExecError ScriptExecutionResult := do
  let validated_path ← validate_script_path fs script_path skill_base_dir
  let _ ← check_permissions fs validated_path
  let _interpreter ← resolve_interpreter fs validated_path
  let _arguments ← serialize_arguments arguments_json
  let _env := build_environment osEnviron skill_metadata skill_base_dir skillkitVersion
  let step := execute_subprocess outcome
  let exit_code := step.1
  let truncated := handle_output_truncation cfg.max_output_size step.2.1 step.2.2.1
  let sig := detect_signal step.2.2.2.1 step.2.2.2.2
  .ok { stdout := truncated.1, stderr := truncated.2.1, exit_code := exit_code,
        script_path := validated_path, signal := sig.1, signal_number := sig.2,
        stdout_truncated := truncated.2.2.1, stderr_truncated := truncated.2.2.2 }

/-- A convenient benign filesystem for concrete evaluations: every path
resolves to itself, nothing is a symlink, everything is a mode-0o644 regular
file, every interpreter is on PATH. -/
def plainFS : FS :=
  { realpath := fun p => some p, isSymlink := fun _ => false,
    isFile := fun _ => true, fileMode := fun _ => 420,
    whichOk := fun _ => true }

/-- A directory entry as observed through `Path.iterdir`: `is_dir`/`is_file`
follow symlinks, so a symlink whose target is a directory is a `dir` node
with `isSymlink = true`, and a symlink to a regular file is a `file` node
with `isSymlink = true`. -/
inductive FsNode where
  | file (name : String) (isSymlink : Bool)
  | dir (name : String) (isSymlink : Bool) (children : List FsNode)

/-- The entry's file name. -/
def FsNode.nodeName : FsNode → String
  | .file n _ => n
  | .dir n _ _ => n

/-- `item.name.startswith('.')`. -/
def hiddenName (name : String) : Bool :=
  match name.data with
  | '.' :: _ => true
  | _ => false

/-- The cache-directory denylist of `ScriptDetector._scan_directories`. -/
def CACHE_DIR_NAMES : List String :=
  ["__pycache__", "node_modules", ".venv", "venv"]

/-- `_get_script_type` (scripts.py:276-302). -/
def get_script_type (name : String) : String :=
  let ext := String.mk ((nameSuffix name.data).data.map Char.toLower)
  (([(".py", "python"), (".sh", "shell"), (".js", "javascript"),
     (".rb", "ruby"), (".pl", "perl"), (".bat", "batch"), (".cmd", "batch"),
     (".ps1", "powershell")] : List (String × String)).lookup ext).getD "unknown"

/-- `ScriptDetector._is_executable_script` (scripts.py:611-630): a regular
non-symlink file whose lowered extension is a key of `INTERPRETER_MAP`. -/
def is_executable_script : FsNode → Bool
  | .file name isSymlink =>
      !isSymlink &&
        (INTERPRETER_MAP.lookup
          (String.mk ((nameSuffix name.data).data.map Char.toLower))).isSome
  | .dir _ _ _ => false

/-- `PurePath.stem`: the final component without its suffix. -/
def nameStem (name : String) : String :=
  let suf := nameSuffix name.data
  String.mk (name.data.take (name.data.length - suf.data.length))

/-- `ScriptMetadata` (scripts.py:77-142): `path` is relative to the skill
base directory. -/
structure ScriptMetadata where
  name : String
  path : List String
  script_type : String
  description : String
  deriving Repr, DecidableEq

/-- `ScriptDetector.__init__` configuration (scripts.py:486-495). -/
structure ScriptDetector where
  max_depth : Nat := 5
  max_lines_for_description : Nat := 50
  deriving Repr, DecidableEq

/-- `ScriptDetector._extract_metadata` (scripts.py:632-662).  Description
extraction reads the file, an effect modelled by the `extract` argument
(absolute path ↦ extracted description); `relative_to` cannot fail here
because the path was produced under the base directory, so the `None`
branch is unreachable in the model. -/
def extract_metadata (extract : List String → String) (base rel : List String)
    (name : String) : List ScriptMetadata :=
  [{ name := nameStem name, path := rel, script_type := get_script_type name,
     description := extract (base ++ rel) }]

/-- `ScriptDetector._scan_directories` (scripts.py:530-573): recursive scan
of the children of a directory sitting at recursion depth `depth`, guarded
by `depth >= max_depth`.  `rel` is the directory's path relative to the
skill base directory. -/
def scan_directories (det : ScriptDetector) (extract : List String → String)
    (base : List String) (children : List FsNode) (rel : List String)
    (depth : Nat) : List ScriptMetadata :=
  if depth ≥ det.max_depth then []
  else
    (children.map (fun item =>
      if hiddenName item.nodeName then []
      else if CACHE_DIR_NAMES.contains item.nodeName then []
      else
        match item with
        | .dir name isSymlink ch =>
            if isSymlink then []
            else scan_directories det extract base ch (rel ++ [name]) (depth + 1)
        | .file name isSymlink =>
            if is_executable_script (.file name isSymlink) then
              extract_metadata extract base (rel ++ [name]) name
            else [])).flatten
termination_by det.max_depth - depth

/-- `ScriptDetector._scan_root_directory` (scripts.py:575-609): `item.suffix`
is compared against `('.md', '.txt', '.json')` without lowering. -/
def scan_root_directory (extract : List String → String) (base : List String)
    (children : List FsNode) : List ScriptMetadata :=
  (children.map (fun item =>
    if hiddenName item.nodeName then []
    else
      match item with
      | .dir _ _ _ => []
      | .file name isSymlink =>
          if name = "SKILL.md" ∨
              nameSuffix name.data ∈ ([".md", ".txt", ".json"] : List String) then []
          else if is_executable_script (.file name isSymlink) then
            extract_metadata extract base [name] name
          else [])).flatten

/-- `ScriptDetector.detect_scripts` (scripts.py:497-528): scan `scripts/`
recursively from depth 0 when it exists and is a directory, then the skill
root non-recursively.  `root` lists the children of the skill base
directory. -/
def detect_scripts (det : ScriptDetector) (extract : List String → String)
    (base : List String) (root : List FsNode) : List ScriptMetadata :=
  let fromScripts :=
    match root.find? (fun c => c.nodeName == "scripts") with
    | some (.dir _ _ sch) => scan_directories det extract base sch ["scripts"] 0
    | _ => []
  fromScripts ++ scan_root_directory extract base root

/-- Python `str.upper` (ASCII raising; the compared literal `SKILL.MD` is
ASCII). -/
def upperStr (s : String) : String :=
  String.mk (s.data.map Char.toUpper)

/-- `SkillDiscovery.find_skill_files` (discovery.py:100-141): for every
immediate subdirectory, the first entry whose upper-cased name is
`SKILL.MD` (then `break`), returned as an absolute path. -/
def find_skill_files (skills_dir : List String) (entries : List FsNode) :
    List (List String) :=
  (entries.map (fun subdir =>
    match subdir with
    | .file _ _ => []
    | .dir name _ children =>
        match children.find? (fun f => upperStr f.nodeName == "SKILL.MD") with
        | some f => [skills_dir ++ [name, f.nodeName]]
        | none => [])).flatten

/-- `SkillDiscovery.afind_skill_files` (discovery.py:239-286): the `_scan`
closure dispatched through `asyncio.to_thread`; the body is translated on
its own from the async source function. -/
def afind_skill_files (skills_dir : List String) (entries : List FsNode) :
    List (List String) :=
  (entries.map (fun subdir =>
    match subdir with
    | .file _ _ => []
    | .dir name _ children =>
        match children.find? (fun f => upperStr f.nodeName == "SKILL.MD") with
        | some f => [skills_dir ++ [name, f.nodeName]]
        | none => [])).flatten

/-- `SkillDiscovery.scan_directory` (discovery.py:72-98): existence and
directory checks before delegating, observed through `fsAt` (absolute path ↦
the node there, `none` when nothing exists). -/
def scan_directory (fsAt : List String → Option FsNode)
    (skills_dir : List String) : List (List String) :=
  match fsAt skills_dir with
  | none => []
  | some (.file _ _) => []
  | some (.dir _ _ ch) => find_skill_files skills_dir ch

/-- `SkillDiscovery.ascan_directory` (discovery.py:211-237). -/
def ascan_directory (fsAt : List String → Option FsNode)
    (skills_dir : List String) : List (List String) :=
  match fsAt skills_dir with
  | none => []
  | some (.file _ _) => []
  | some (.dir _ _ ch) => afind_skill_files skills_dir ch

/-- Modelled from the spec (§3 Registry state; `models.py` is not in the
source tree): the initialization mode of a `SkillManager`. -/
inductive InitMode where
  | uninitialized
  | sync
  | async
  deriving Repr, DecidableEq

/-- Modelled from the spec (§3; `models.py` absent): the kind of a skill
source. -/
inductive SourceType where
  | project
  | anthropic
  | plugin
  | custom
  deriving Repr, DecidableEq

/-- Modelled from the spec (§3; `models.py` absent): a prioritized skill
source, as constructed by `SkillManager._build_sources`. -/
structure SkillSource where
  source_type : SourceType
  directory : List String
  priority : Int
  plugin_name : Option String := none
  deriving Repr, DecidableEq

/-- `path.exists() and path.is_dir()`. -/
def isExistingDir (fsAt : List String → Option FsNode) (p : List String) : Bool :=
  match fsAt p with
  | some (.dir _ _ _) => true
  | _ => false

/-- Stable insertion into a priority-descending list: an element with the
same priority stays after the ones already present. -/
def insertByPriority (s : SkillSource) : List SkillSource → List SkillSource
  | [] => [s]
  | t :: ts =>
      if t.priority < s.priority then s :: t :: ts else t :: insertByPriority s ts

/-- `sources.sort(key=lambda s: s.priority, reverse=True)`: Python's stable
sort, descending by priority. -/
def sortByPriorityDesc (l : List SkillSource) : List SkillSource :=
  l.foldl (fun acc s => insertByPriority s acc) []

/-- `SkillManager._build_sources` (manager.py:106-206).  Directories are
taken already canonical (`Path.resolve` as identity); non-existent ones are
filtered out.  The final `sources.sort(key=priority, reverse=True)` is a
stable descending sort. -/
def build_sources (fsAt : List String → Option FsNode)
    (project_skill_dir anthropic_config_dir : Option (List String))
    (plugin_dirs additional_search_paths : List (List String)) :
    List SkillSource :=
  let projectSources : List SkillSource :=
    match project_skill_dir with
    | some p => if isExistingDir fsAt p then
        [{ source_type := .project, directory := p, priority := 100 }] else []
    | none => []
  let anthropicSources : List SkillSource :=
    match anthropic_config_dir with
    | some p => if isExistingDir fsAt p then
        [{ source_type := .anthropic, directory := p, priority := 50 }] else []
    | none => []
  let pluginSources : List SkillSource :=
    plugin_dirs.filterMap (fun p =>
      if isExistingDir fsAt p then
        some { source_type := .plugin, directory := p, priority := 10,
               plugin_name := p.getLast? }
      else none)
  let customSources : List SkillSource :=
    (additional_search_paths.enum).filterMap (fun ip =>
      if isExistingDir fsAt ip.2 then
        some { source_type := .custom, directory := ip.2,
               priority := 5 - (ip.1 : Int) }
      else none)
  sortByPriorityDesc
    (projectSources ++ anthropicSources ++ pluginSources ++ customSources)

/-- The mutable state of a `SkillManager` (manager.py:31-104): the sources,
the registry (an insertion-ordered `name → metadata` mapping), the
initialization mode and the legacy `skills_dir` attribute. -/
structure SkillManager where
  sources : List SkillSource
  skills : List (String × SkillMetadata)
  init_mode : InitMode
  skills_dir : List String
  deriving Repr, DecidableEq

/-- `SkillManager.__init__` (manager.py:47-104): the deprecated `skill_dir`
is mapped to `project_skill_dir` when the latter is absent; `skills_dir`
falls back to `cwd/.claude/skills`. -/
def SkillManager.init (fsAt : List String → Option FsNode)
    (skill_dir project_skill_dir anthropic_config_dir : Option (List String))
    (plugin_dirs additional_search_paths : List (List String))
    (cwd : List String) : SkillManager :=
  let project : Option (List String) :=
    match skill_dir, project_skill_dir with
    | some sd, none => some sd
    | _, p => p
  { sources := build_sources fsAt project anthropic_config_dir plugin_dirs
      additional_search_paths,
    skills := [],
    init_mode := .uninitialized,
    skills_dir :=
      match project with
      | some p => p
      | none => cwd ++ [".claude", "skills"] }

/-- The duplicate-name warning logged by `discover`/`adiscover`
(manager.py:277-281): the duplicated name, the skipped file and the kept
entry's `skill_path`. -/
structure DiscoverWarning where
  name : String
  new_path : List String
  existing_path : List String
  deriving Repr, DecidableEq

/-- The per-file loop of `discover` (manager.py:272-293): parse (the parser
is the external collaborator `parse`, `none` for either exception branch),
keep the first occurrence of each name, warn on duplicates. -/
def registerSkillFiles (parse : List String → Option SkillMetadata) :
    List (List String) → List (String × SkillMetadata) → List DiscoverWarning →
    List (String × SkillMetadata) × List DiscoverWarning
  | [], skills, warnings => (skills, warnings)
  | f :: rest, skills, warnings =>
      match parse f with
      | none => registerSkillFiles parse rest skills warnings
      | some metadata =>
          match skills.lookup metadata.name with
          | some existing =>
              registerSkillFiles parse rest skills
                (warnings ++ [{ name := metadata.name, new_path := f,
                                existing_path := existing.skill_path }])
          | none =>
              registerSkillFiles parse rest (skills ++ [(metadata.name, metadata)])
                warnings

/-- The `AsyncStateError` message raised by `discover` on an
async-initialized manager (manager.py:250-254). -/
def discoverAsyncModeMsg : String :=
  "Manager was initialized with adiscover() (async mode). Cannot mix sync and async methods. Create a new manager instance."

/-- The `AsyncStateError` message raised by `adiscover` on a
sync-initialized manager (manager.py:330-334). -/
def adiscoverSyncModeMsg : String :=
  "Manager was initialized with discover() (sync mode). Cannot mix sync and async methods. Create a new manager instance."

/-- `SkillManager.discover` (manager.py:217-295): fail fast on an
async-initialized manager (state untouched), otherwise set mode to sync,
clear the registry, scan `self.skills_dir` (and only it) and register the
parsed files.  Returns the raised message (if any), the manager state
afterwards and the duplicate warnings. -/
def discover (m : SkillManager) (fsAt : List String → Option FsNode)
    (parse : List String → Option SkillMetadata) :
    Option String × SkillManager × List DiscoverWarning :=
  if m.init_mode = .async then
    (some discoverAsyncModeMsg, m, [])
  else
    let skill_files := scan_directory fsAt m.skills_dir
    let reg := registerSkillFiles parse skill_files [] []
    (none, { m with init_mode := .sync, skills := reg.1 }, reg.2)

/-- `SkillManager.adiscover` (manager.py:297-377): the async twin, failing
fast on a sync-initialized manager. -/
def adiscover (m : SkillManager) (fsAt : List String → Option FsNode)
    (parse : List String → Option SkillMetadata) :
    Option String × SkillManager × List DiscoverWarning :=
  if m.init_mode = .sync then
    (some adiscoverSyncModeMsg, m, [])
  else
    let skill_files := ascan_directory fsAt m.skills_dir
    let reg := registerSkillFiles parse skill_files [] []
    (none, { m with init_mode := .async, skills := reg.1 }, reg.2)

/-- The exceptions reachable from the invocation convenience methods. -/
inductive InvokeError where
  | skillNotFound (message : String)
  | asyncState (message : String)
  | skillsUse (message : String)
  deriving Repr, DecidableEq

/-- `SkillManager.get_skill` (manager.py:398-425). -/
def get_skill (m : SkillManager) (name : String) :
    Except InvokeError SkillMetadata :=
  match m.skills.lookup name with
  | none => .error (.skillNotFound ("Skill '" ++ name ++ "' not found."))
  | some metadata => .ok metadata

/-- `Skill` as far as the manager constructs it (manager.py:427-454):
metadata plus the parent directory of the manifest. -/
structure Skill where
  metadata : SkillMetadata
  base_directory : List String
  deriving Repr, DecidableEq

/-- `SkillManager.load_skill` (manager.py:427-454). -/
def load_skill (m : SkillManager) (name : String) : Except InvokeError Skill :=
  match get_skill m name with
  | .error e => .error e
  | .ok metadata =>
      .ok { metadata := metadata, base_directory := metadata.skill_path.dropLast }

/-- `SkillManager.invoke_skill` (manager.py:456-484): lookup, load, then the
external content/argument pipeline `Skill.invoke` (models.py absent),
modelled by the `skillInvoke` argument.  The source performs no
initialization-mode check here. -/
def invoke_skill (m : SkillManager) (name arguments : String)
    (skillInvoke : Skill → String → String) : Except InvokeError String :=
  match load_skill m name with
  | .error e => .error e
  | .ok skill => .ok (skillInvoke skill arguments)

/-- The `AsyncStateError` message of `ainvoke_skill` (manager.py:518-523). -/
def ainvokeSyncModeMsg : String :=
  "Manager was initialized with discover() (sync mode). Cannot use ainvoke_skill(). Use invoke_skill() instead, or create a new manager and call adiscover()."

/-- The `SkillsUseError` message of `ainvoke_skill` (manager.py:525-528). -/
def ainvokeUninitializedMsg : String :=
  "Manager not initialized. Call adiscover() before invoking skills."

/-- `SkillManager.ainvoke_skill` (manager.py:486-532): reject a
sync-initialized or uninitialized manager, then lookup, load and the async
pipeline `Skill.ainvoke` (external, modelled by `skillAinvoke`). -/
def ainvoke_skill (m : SkillManager) (name arguments : String)
    (skillAinvoke : Skill → String → String) : Except InvokeError String :=
  if m.init_mode = .sync then
    .error (.asyncState ainvokeSyncModeMsg)
  else if m.init_mode = .uninitialized then
    .error (.skillsUse ainvokeUninitializedMsg)
  else
    match load_skill m name with
    | .error e => .error e
    | .ok skill => .ok (skillAinvoke skill arguments)

/-- The result record built by the tail of `execute` (everything after path
validation), used to state and prove facts about successful executions. -/
def assembleResult (cfg : ScriptExecutor) (validated_path : List String)
    (outcome : SubprocessOutcome) : ScriptExecutionResult :=
  let step := execute_subprocess outcome
  let truncated := handle_output_truncation cfg.max_output_size step.2.1 step.2.2.1
  let sig := detect_signal step.2.2.2.1 step.2.2.2.2
  { stdout := truncated.1, stderr := truncated.2.1, exit_code := step.1,
    script_path := validated_path, signal := sig.1, signal_number := sig.2,
    stdout_truncated := truncated.2.2.1, stderr_truncated := truncated.2.2.2 }

/-- Whether an execution attempt ended in a `ToolRestrictionError`. -/
def raisesToolRestriction (r : Except ExecError ScriptExecutionResult) : Bool :=
  match r with
  | .error (.toolRestriction _ _ _) => true
  | _ => false

/-- Whether an error value is a `ToolRestrictionError`. -/
def ExecError.isToolRestrictionErr : ExecError → Bool
  | .toolRestriction _ _ _ => true
  | _ => false

/-- A chain `a/a/…/a/x.py` of `d` directories ending in a Python script:
`chainTree d` placed among the children of `scripts/` puts `x.py` at
nesting depth `d` below `scripts/` (depth 0 = a direct child). -/
def chainTree : Nat → FsNode
  | 0 => .file "x.py" false
  | d + 1 => .dir "a" false [chainTree d]

/-- Two-source duplicate scenario: the project directory `/proj` and the
Anthropic config directory `/anth` each contain a skill named `X`. -/
def fsAtC3 : List String → Option FsNode := fun p =>
  if p = ["proj"] then
    some (.dir "proj" false [.dir "X" false [.file "SKILL.md" false]])
  else if p = ["anth"] then
    some (.dir "anth" false [.dir "X" false [.file "SKILL.md" false]])
  else none

/-- The metadata parsed from `/proj/X/SKILL.md` (higher-priority source). -/
def metaProjX : SkillMetadata :=
  { name := "X", description := "from project", skill_path := ["proj", "X", "SKILL.md"] }

/-- The metadata parsed from `/anth/X/SKILL.md` (lower-priority source). -/
def metaAnthX : SkillMetadata :=
  { name := "X", description := "from anthropic", skill_path := ["anth", "X", "SKILL.md"] }

/-- The external parser on the two-source scenario's manifest files. -/
def parseC3 : List String → Option SkillMetadata := fun f =>
  if f = ["proj", "X", "SKILL.md"] then some metaProjX
  else if f = ["anth", "X", "SKILL.md"] then some metaAnthX
  else none

/-- The manager configured with both the project and the Anthropic config
directories of the two-source scenario. -/
def managerC3 : SkillManager :=
  SkillManager.init fsAtC3 none (some ["proj"]) (some ["anth"]) [] [] ["cwd"]

/-- `startsWith s []` always holds (the empty string is a prefix). -/
theorem startsWith_nil_true (s : List Char) : startsWith s [] = true := by
  cases s <;> rfl

/-- `startsWith` decides the list-prefix relation. -/
theorem startsWith_eq_true_iff (s p : List Char) :
    startsWith s p = true ↔ p <+: s := by
  induction p generalizing s with
  | nil => simp [startsWith_nil_true, List.nil_prefix]
  | cons c cs ih =>
      cases s with
      | nil => simp [startsWith, List.prefix_nil]
      | cons a as =>
          rw [startsWith]
          simp only [Bool.and_eq_true, beq_iff_eq, List.cons_prefix_cons, ih]
          constructor
          · rintro ⟨h1, h2⟩
            exact ⟨h1.symm, h2⟩
          · rintro ⟨h1, h2⟩
            exact ⟨h1.symm, h2⟩

/-- `commonpath b r` returns `b` itself exactly when `b` is a component
prefix of `r`. -/
theorem commonpath_eq_left_iff (b r : List String) :
    commonpath b r = b ↔ b <+: r := by
  induction b generalizing r with
  | nil =>
      cases r <;> simp [commonpath, List.nil_prefix]
  | cons a as ih =>
      cases r with
      | nil => simp [commonpath, List.prefix_nil]
      | cons c cs =>
          simp only [commonpath, List.cons_prefix_cons]
          by_cases h : a = c
          · subst h
            simp [ih]
          · simp [h]

/-- Rendering distributes over concatenation of nonempty paths. -/
theorem pathChars_append_of_ne_nil (b t : List String) (hb : b ≠ [])
    (ht : t ≠ []) : pathChars (b ++ t) = pathChars b ++ pathChars t := by
  simp [pathChars, hb, ht, List.append_eq_nil, List.map_append,
    List.flatten_append]

/-- Rendering a nonempty path starts with the separator. -/
theorem pathChars_cons (c : String) (t : List String) :
    pathChars (c :: t) = '/' :: (c.data ++ (t.map (fun s => '/' :: s.data)).flatten) := by
  simp [pathChars]

/-- `startsWith` ignores a shared prefix. -/
theorem startsWith_append_same (x s p : List Char) :
    startsWith (x ++ s) (x ++ p) = startsWith s p := by
  induction x with
  | nil => rfl
  | cons a as ih => simp [startsWith, ih]

/-- Any list starts with its own prefix. -/
theorem startsWith_append_self (x s : List Char) :
    startsWith (x ++ s) x = true :=
  (startsWith_eq_true_iff _ _).2 (List.prefix_append x s)

/-- A strictly longer candidate is never a prefix. -/
theorem startsWith_false_of_longer (s p : List Char) (h : s.length < p.length) :
    startsWith s p = false := by
  cases hsp : startsWith s p with
  | false => rfl
  | true =>
      exact absurd ((startsWith_eq_true_iff s p).1 hsp).length_le (by omega)

/-- `List.isPrefixOf` decides the prefix relation (byte lists). -/
theorem isPrefixOf_true_iff (l₁ l₂ : Bytes) :
    l₁.isPrefixOf l₂ = true ↔ l₁ <+: l₂ :=
  List.isPrefixOf_iff_prefix

/-- `containsSub` decides the contiguous-substring (infix) relation, matching
Python's `in` on strings. -/
theorem containsSub_eq_true_iff (s sub : Bytes) :
    containsSub s sub = true ↔ sub <:+: s := by
  induction s with
  | nil =>
      rw [containsSub]
      by_cases h : List.isPrefixOf sub ([] : Bytes)
      · simp [h, ((isPrefixOf_true_iff _ _).1 h).isInfix]
      · simp [h]
        intro hs
        subst hs
        exact h rfl
  | cons a t ih =>
      rw [containsSub]
      by_cases h : List.isPrefixOf sub (a :: t)
      · simp [h, ((isPrefixOf_true_iff _ _).1 h).isInfix]
      · have hnp : ¬ sub <+: (a :: t) := fun hp => h ((isPrefixOf_true_iff _ _).2 hp)
        simp [h, ih, List.infix_cons_iff, hnp]

/-- C9: for every directory state, the asynchronous skill-file discovery
variant returns exactly the same list of manifest paths, in the same order,
as the synchronous variant applied to the same directory, and likewise for
the existence-checking wrappers. -/
theorem afind_skill_files_refines_find (skills_dir : List String)
    (entries : List FsNode) (fsAt : List String → Option FsNode)
    (d : List String) :
    afind_skill_files skills_dir entries = find_skill_files skills_dir entries ∧
    ascan_directory fsAt d = scan_directory fsAt d := by
  refine ⟨rfl, ?_⟩
  unfold ascan_directory scan_directory
  rfl

/-- C6: for each of stdout and stderr independently, the truncation flag is
set exactly when the stream's encoded size exceeds the configured maximum;
the returned stream is bounded by the cap plus the marker size, and a stream
at or under the cap is passed through unmodified (total functions: no error
is ever raised). -/
theorem handle_output_truncation_caps (max_output_size : Nat)
    (stdout stderr : Bytes) :
    ((handle_output_truncation max_output_size stdout stderr).2.2.1 =
        decide (max_output_size < stdout.length)) ∧
    ((handle_output_truncation max_output_size stdout stderr).2.2.2 =
        decide (max_output_size < stderr.length)) ∧
    (handle_output_truncation max_output_size stdout stderr).1.length ≤
        max_output_size + OUTPUT_TRUNC_MARKER.length ∧
    (handle_output_truncation max_output_size stdout stderr).2.1.length ≤
        max_output_size + STDERR_TRUNC_MARKER.length ∧
    ((handle_output_truncation max_output_size stdout stderr).1 =
        if max_output_size < stdout.length then
          stdout.take max_output_size ++ OUTPUT_TRUNC_MARKER
        else stdout) ∧
    ((handle_output_truncation max_output_size stdout stderr).2.1 =
        if max_output_size < stderr.length then
          stderr.take max_output_size ++ STDERR_TRUNC_MARKER
        else stderr) := by
  unfold handle_output_truncation
  by_cases h1 : max_output_size < stdout.length <;>
    by_cases h2 : max_output_size < stderr.length <;>
      simp [h1, h2, List.length_take] <;> omega

/-- `"x.py"` is not hidden. -/
theorem hiddenName_xpy : hiddenName "x.py" = false := rfl

/-- `"a"` is not hidden. -/
theorem hiddenName_a : hiddenName "a" = false := rfl

/-- `"x.py"` is not a cache-directory name. -/
theorem cache_not_xpy : CACHE_DIR_NAMES.contains "x.py" = false := rfl

/-- `"a"` is not a cache-directory name. -/
theorem cache_not_a : CACHE_DIR_NAMES.contains "a" = false := rfl

/-- A plain `x.py` file qualifies as an executable script. -/
theorem exec_xpy : is_executable_script (.file "x.py" false) = true := rfl

/-- The stem of `x.py`. -/
theorem stem_xpy : nameStem "x.py" = "x" := rfl

/-- The script type of `x.py`. -/
theorem type_xpy : get_script_type "x.py" = "python" := rfl

/-- Scanning a single `chainTree d` chain at recursion depth `depth`: the
script is reported exactly when the depth budget allows reaching it, i.e.
when `depth + d < max_depth`. -/
theorem scan_directories_chainTree (det : ScriptDetector)
    (extract : List String → String) (base : List String) (d : Nat)
    (rel : List String) (depth : Nat) :
    scan_directories det extract base [chainTree d] rel depth =
      if depth + d < det.max_depth then
        [{ name := "x", path := rel ++ (List.replicate d "a" ++ ["x.py"]),
           script_type := "python",
           description :=
             extract (base ++ (rel ++ (List.replicate d "a" ++ ["x.py"]))) }]
      else [] := by
  induction d generalizing rel depth with
  | zero =>
      rw [scan_directories]
      by_cases h : depth ≥ det.max_depth
      · rw [if_pos h, if_neg (by omega)]
      · rw [if_neg h, if_pos (by omega)]
        rfl
  | succ d ih =>
      rw [scan_directories]
      by_cases h : depth ≥ det.max_depth
      · rw [if_pos h, if_neg (by omega)]
      · rw [if_neg h]
        show scan_directories det extract base [chainTree d] (rel ++ ["a"])
            (depth + 1) ++ [] = _
        rw [List.append_nil, ih]
        have hpath : (rel ++ ["a"]) ++ (List.replicate d "a" ++ ["x.py"]) =
            rel ++ (List.replicate (d + 1) "a" ++ ["x.py"]) := by
          simp [List.replicate_succ]
        by_cases h2 : depth + (d + 1) < det.max_depth
        · rw [if_pos (by omega), if_pos h2, hpath]
        · rw [if_neg (by omega), if_neg h2]

/-- C5 counterexample: with `max_depth = 1`, a script nested at depth 1
below `scripts/` (which the claim, reading `D ≤ M`, says is found) is not
detected at all. -/
theorem detect_scripts_depth_counterexample :
    detect_scripts { max_depth := 1 } (fun _ => "") ["skill"]
      [.dir "scripts" false [.dir "a" false [.file "x.py" false]]] = [] := by
  simp [detect_scripts, scan_directories, scan_root_directory, FsNode.nodeName,
    hiddenName, CACHE_DIR_NAMES, is_executable_script, extract_metadata]

/-- C5 (amended): a script nested at directory depth `D` under `scripts/`
(depth 0 = direct child) is found by `detect_scripts` with `max_depth = M`
if and only if `D < M`; in particular a script at depth `M - 1` is found,
one at depth `M` is not, and `max_depth = 0` disables the `scripts/` scan
entirely. -/
theorem detect_scripts_depth_boundary (D M : Nat)
    (extract : List String → String) (base : List String) :
    detect_scripts { max_depth := M } extract base
        [.dir "scripts" false [chainTree D]] =
      if D < M then
        [{ name := "x", path := "scripts" :: (List.replicate D "a" ++ ["x.py"]),
           script_type := "python",
           description :=
             extract (base ++ ("scripts" :: (List.replicate D "a" ++ ["x.py"]))) }]
      else [] := by
  have hstep : detect_scripts { max_depth := M } extract base
      [.dir "scripts" false [chainTree D]] =
      scan_directories { max_depth := M } extract base [chainTree D]
        ["scripts"] 0 ++
      scan_root_directory extract base
        [.dir "scripts" false [chainTree D]] := rfl
  have hroot : scan_root_directory extract base
      [.dir "scripts" false [chainTree D]] = [] := rfl
  rw [hstep, hroot, List.append_nil, scan_directories_chainTree]
  simp [Nat.zero_add]

/-- C1: a candidate script path (relative or absolute) whose canonical
resolution `r` is not strictly inside the canonical skill base directory —
including a sibling directory whose name merely has the base as a string
prefix, such as `/skills-evil` versus `/skills` — makes
`_validate_script_path` raise a path-security error, and `execute` then
returns that error for every configuration, so no subprocess outcome is ever
consulted; a candidate resolving to a regular file strictly inside the base
is returned resolved. -/
theorem validate_script_path_strict_containment
    (fs : FS) (script_path : ScriptPath) (skill_base_dir r : List String)
    (hbase : skill_base_dir ≠ [])
    (hres : fs.realpath (candidatePath script_path skill_base_dir) = some r) :
    (¬ (skill_base_dir <+: r ∧ skill_base_dir ≠ r) →
       (∃ msg, validate_script_path fs script_path skill_base_dir =
          .error (.pathSecurity msg)) ∧
       (∀ cfg arguments_json skill_metadata osEnviron skillkitVersion outcome,
         ∃ msg, execute cfg fs script_path arguments_json skill_base_dir
             skill_metadata osEnviron skillkitVersion outcome =
           .error (.pathSecurity msg))) ∧
    ((skill_base_dir <+: r ∧ skill_base_dir ≠ r) → fs.isFile r = true →
       validate_script_path fs script_path skill_base_dir = .ok r) := by
  have hval : validate_script_path fs script_path skill_base_dir =
      (if commonpath skill_base_dir r ≠ skill_base_dir then
        .error (.pathSecurity ("Script path escapes skill directory: "
          ++ pstr (candidatePath script_path skill_base_dir) ++ " -> " ++ pstr r))
      else if ¬ startsWith (pathChars r) (pathChars skill_base_dir ++ ['/']) then
        .error (.pathSecurity ("Script path outside skill directory: " ++ pstr r))
      else if fs.isSymlink (candidatePath script_path skill_base_dir) ∧
          ¬ startsWith (pathChars r) (pathChars skill_base_dir) then
        .error (.pathSecurity ("Symlink points outside skill directory: "
          ++ pstr (candidatePath script_path skill_base_dir) ++ " -> " ++ pstr r))
      else if ¬ fs.isFile r then
        .error (.fileNotFound ("Script not found: " ++ pstr r))
      else .ok r) := by
    unfold validate_script_path
    simp only [hres]
  constructor
  · intro hn
    have herr : ∃ msg, validate_script_path fs script_path skill_base_dir =
        .error (.pathSecurity msg) := by
      by_cases hpre : skill_base_dir <+: r
      · have hr : skill_base_dir = r := by
          by_contra hne
          exact hn ⟨hpre, hne⟩
        subst hr
        rw [hval]
        rw [if_neg (not_not_intro
          ((commonpath_eq_left_iff _ _).2 (List.prefix_refl _)))]
        rw [if_pos (by
          have hlong := startsWith_false_of_longer (pathChars skill_base_dir)
            (pathChars skill_base_dir ++ ['/']) (by simp)
          simp [hlong])]
        exact ⟨_, rfl⟩
      · rw [hval]
        rw [if_pos (fun he => hpre ((commonpath_eq_left_iff _ _).1 he))]
        exact ⟨_, rfl⟩
    refine ⟨herr, ?_⟩
    intro cfg arguments_json skill_metadata osEnviron skillkitVersion outcome
    obtain ⟨msg, hm⟩ := herr
    refine ⟨msg, ?_⟩
    unfold execute
    rw [hm]
    rfl
  · rintro ⟨hpre, hne⟩ hfile
    obtain ⟨t, ht⟩ := hpre
    have htne : t ≠ [] := by
      rintro rfl
      exact hne (by simp [← ht])
    subst ht
    obtain ⟨c, ts, rfl⟩ : ∃ c ts, t = c :: ts := by
      cases t with
      | nil => exact absurd rfl htne
      | cons c ts => exact ⟨c, ts, rfl⟩
    have hchars : pathChars (skill_base_dir ++ c :: ts) =
        pathChars skill_base_dir ++ pathChars (c :: ts) :=
      pathChars_append_of_ne_nil _ _ hbase (by simp)
    have hstart1 : startsWith (pathChars (skill_base_dir ++ c :: ts))
        (pathChars skill_base_dir ++ ['/']) = true := by
      rw [hchars, pathChars_cons, startsWith_append_same]
      simp [startsWith, startsWith_nil_true]
    have hstart2 : startsWith (pathChars (skill_base_dir ++ c :: ts))
        (pathChars skill_base_dir) = true := by
      rw [hchars]
      exact startsWith_append_self _ _
    rw [hval]
    rw [if_neg (not_not_intro
      ((commonpath_eq_left_iff _ _).2 ⟨c :: ts, rfl⟩))]
    rw [if_neg (not_not_intro hstart1)]
    rw [if_neg (fun hc => hc.2 hstart2)]
    rw [if_neg (not_not_intro hfile)]

/-- Witness for C1 at concrete inputs: the sibling directory
`/skills-evil/x.py` is rejected against base `/skills`, and the in-tree
`scripts/x.py` is accepted and returned resolved. -/
theorem validate_script_path_strict_containment_witness :
    (∃ msg, validate_script_path plainFS (.absolute ["skills-evil", "x.py"])
        ["skills"] = .error (.pathSecurity msg)) ∧
    validate_script_path plainFS (.relative ["scripts", "x.py"]) ["skills"] =
      .ok ["skills", "scripts", "x.py"] := by
  constructor
  · exact ((validate_script_path_strict_containment plainFS
      (.absolute ["skills-evil", "x.py"]) ["skills"] ["skills-evil", "x.py"]
      (by decide) rfl).1 (by decide)).1
  · exact (validate_script_path_strict_containment plainFS
      (.relative ["scripts", "x.py"]) ["skills"] ["skills", "scripts", "x.py"]
      (by decide) rfl).2 ⟨⟨["scripts", "x.py"], rfl⟩, by decide⟩ rfl

/-- C7: `discover` on an async-initialized manager and `adiscover` on a
sync-initialized manager both fail fast with a state error naming the
active mode, returning the manager completely unchanged (registry and mode
included); a successful call fixes the corresponding mode, and once the
mode has left `uninitialized` neither operation ever changes it. -/
theorem init_mode_state_machine (m : SkillManager)
    (fsAt : List String → Option FsNode)
    (parse : List String → Option SkillMetadata) :
    (m.init_mode = .async →
       discover m fsAt parse = (some discoverAsyncModeMsg, m, [])) ∧
    (m.init_mode = .sync →
       adiscover m fsAt parse = (some adiscoverSyncModeMsg, m, [])) ∧
    (m.init_mode ≠ .async → (discover m fsAt parse).2.1.init_mode = .sync) ∧
    (m.init_mode ≠ .sync → (adiscover m fsAt parse).2.1.init_mode = .async) ∧
    (m.init_mode ≠ .uninitialized →
       (discover m fsAt parse).2.1.init_mode = m.init_mode ∧
       (adiscover m fsAt parse).2.1.init_mode = m.init_mode) := by
  cases hm : m.init_mode <;> simp [discover, adiscover, hm]

/-- Witness for C7: concrete async- and sync-initialized managers are
rejected by the opposite-mode discovery call, state untouched. -/
theorem init_mode_state_machine_witness :
    discover
      { sources := [], skills := [], init_mode := .async, skills_dir := ["d"] }
      (fun _ => none) (fun _ => none) =
      (some discoverAsyncModeMsg,
       { sources := [], skills := [], init_mode := .async, skills_dir := ["d"] },
       []) ∧
    adiscover
      { sources := [], skills := [], init_mode := .sync, skills_dir := ["d"] }
      (fun _ => none) (fun _ => none) =
      (some adiscoverSyncModeMsg,
       { sources := [], skills := [], init_mode := .sync, skills_dir := ["d"] },
       []) :=
  ⟨(init_mode_state_machine _ _ _).1 rfl, (init_mode_state_machine _ _ _).2.1 rfl⟩

/-- C8 counterexample: `invoke_skill` called against an async-initialized
manager succeeds (the subprocess of work proceeds) instead of raising a
state error — the sync invocation method performs no mode validation. -/
theorem invoke_skill_no_mode_check_counterexample :
    invoke_skill
      { sources := [],
        skills := [("x",
          { name := "x", description := "",
            skill_path := ["d", "x", "SKILL.md"] })],
        init_mode := .async, skills_dir := ["d"] } "x" "args"
      (fun _ _ => "out") = .ok "out" := rfl

/-- C8 (amended): `ainvoke_skill` rejects a sync-initialized manager with a
state error (and an uninitialized one with a base-library error), but
`invoke_skill` performs no initialization-mode validation at all: its result
is independent of the manager's mode. -/
theorem invoke_mode_validation_amended :
    (∀ (m : SkillManager) (name arguments : String)
        (skillAinvoke : Skill → String → String), m.init_mode = .sync →
       ainvoke_skill m name arguments skillAinvoke =
         .error (.asyncState ainvokeSyncModeMsg)) ∧
    (∀ (m : SkillManager) (name arguments : String)
        (skillAinvoke : Skill → String → String),
        m.init_mode = .uninitialized →
       ainvoke_skill m name arguments skillAinvoke =
         .error (.skillsUse ainvokeUninitializedMsg)) ∧
    (∀ (m : SkillManager) (mode : InitMode) (name arguments : String)
        (skillInvoke : Skill → String → String),
       invoke_skill { m with init_mode := mode } name arguments skillInvoke =
         invoke_skill m name arguments skillInvoke) := by
  refine ⟨?_, ?_, ?_⟩
  · intro m name arguments skillAinvoke h
    simp [ainvoke_skill, h]
  · intro m name arguments skillAinvoke h
    simp [ainvoke_skill, h]
  · intro m mode name arguments skillInvoke
    rfl

/-- Witness for C8's amended claim: a concrete sync-initialized manager is
rejected by `ainvoke_skill`. -/
theorem invoke_mode_validation_amended_witness :
    ainvoke_skill
      { sources := [], skills := [], init_mode := .sync, skills_dir := [] }
      "x" "" (fun _ _ => "") =
      .error (.asyncState ainvokeSyncModeMsg) :=
  invoke_mode_validation_amended.1 _ _ _ _ rfl

/-- C3 (code): `discover` consults only the legacy `skills_dir`, never the
configured sources: its raised message, resulting registry and warnings are
invariant under replacing the source list, and in the concrete two-source
scenario (project `/proj` and Anthropic `/anth` both holding skill `X`) the
registry ends up with the project metadata while zero duplicate warnings are
recorded — `/anth` is never scanned. -/
theorem discover_ignores_configured_sources :
    (discover managerC3 fsAtC3 parseC3 =
      (none,
       { sources := [
           { source_type := .project, directory := ["proj"], priority := 100 },
           { source_type := .anthropic, directory := ["anth"], priority := 50 }],
         skills := [("X", metaProjX)], init_mode := .sync,
         skills_dir := ["proj"] },
       [])) ∧
    (∀ (m : SkillManager) (fsAt : List String → Option FsNode)
        (parse : List String → Option SkillMetadata) (srcs : List SkillSource),
      (discover { m with sources := srcs } fsAt parse).1 =
        (discover m fsAt parse).1 ∧
      (discover { m with sources := srcs } fsAt parse).2.1.skills =
        (discover m fsAt parse).2.1.skills ∧
      (discover { m with sources := srcs } fsAt parse).2.2 =
        (discover m fsAt parse).2.2) := by
  refine ⟨by rfl, ?_⟩
  intro m fsAt parse srcs
  by_cases h : m.init_mode = .async
  · simp [discover, h]
  · simp [discover, h]

/-- `_validate_script_path` only raises path-security or not-found errors. -/
theorem validate_error_shape (fs : FS) (sp : ScriptPath) (b : List String)
    (e : ExecError) (h : validate_script_path fs sp b = .error e) :
    e.isToolRestrictionErr = false := by
  unfold validate_script_path at h
  cases hr : fs.realpath (candidatePath sp b) with
  | none =>
      simp only [hr] at h
      injection h with h2
      rw [← h2]
      rfl
  | some r =>
      simp only [hr] at h
      split_ifs at h <;>
        first
        | exact Except.noConfusion h
        | (injection h with h2; rw [← h2]; rfl)

/-- `_check_permissions` only raises permission errors. -/
theorem check_permissions_error_shape (fs : FS) (p : List String)
    (e : ExecError) (h : check_permissions fs p = .error e) :
    e.isToolRestrictionErr = false := by
  simp only [check_permissions] at h
  split_ifs at h
  all_goals
    first
    | exact Except.noConfusion h
    | (injection h with h2; rw [← h2]; rfl)

/-- `_resolve_interpreter` only raises interpreter-not-found errors. -/
theorem resolve_interpreter_error_shape (fs : FS) (p : List String)
    (e : ExecError) (h : resolve_interpreter fs p = .error e) :
    e.isToolRestrictionErr = false := by
  unfold resolve_interpreter at h
  cases hl : INTERPRETER_MAP.lookup (pathSuffixLower p) with
  | none =>
      simp only [hl] at h
      injection h with h2
      rw [← h2]
      rfl
  | some interpreter =>
      simp only [hl] at h
      split_ifs at h
      all_goals
        first
        | exact Except.noConfusion h
        | (injection h with h2; rw [← h2]; rfl)

/-- `_serialize_arguments` only raises serialization and size errors. -/
theorem serialize_arguments_error_shape (args : Option String)
    (e : ExecError) (h : serialize_arguments args = .error e) :
    e.isToolRestrictionErr = false := by
  cases args with
  | none =>
      simp only [serialize_arguments] at h
      injection h with h2
      rw [← h2]
      rfl
  | some s =>
      simp only [serialize_arguments] at h
      split_ifs at h
      all_goals
        first
        | exact Except.noConfusion h
        | (injection h with h2; rw [← h2]; rfl)

/-- A successful `execute` run decomposes as a successful path validation
followed by the deterministic result assembly. -/
theorem execute_ok_shape (cfg : ScriptExecutor) (fs : FS) (sp : ScriptPath)
    (args : Option String) (b : List String) (meta : SkillMetadata)
    (env : List (String × String)) (ver : String)
    (outcome : SubprocessOutcome) (r : ScriptExecutionResult)
    (h : execute cfg fs sp args b meta env ver outcome = .ok r) :
    ∃ v, validate_script_path fs sp b = .ok v ∧
      r = assembleResult cfg v outcome := by
  have hexe : execute cfg fs sp args b meta env ver outcome =
      (validate_script_path fs sp b).bind (fun v =>
        (check_permissions fs v).bind (fun _ =>
          (resolve_interpreter fs v).bind (fun _ =>
            (serialize_arguments args).bind (fun _ =>
              Except.ok (assembleResult cfg v outcome))))) := rfl
  rw [hexe] at h
  cases hv : validate_script_path fs sp b with
  | error e =>
      rw [hv] at h
      simp [Except.bind] at h
  | ok v =>
      rw [hv] at h
      simp only [Except.bind] at h
      refine ⟨v, rfl, ?_⟩
      cases hp : check_permissions fs v with
      | error e =>
          rw [hp] at h
          simp [Except.bind] at h
      | ok u =>
          rw [hp] at h
          simp only [Except.bind] at h
          cases hi : resolve_interpreter fs v with
          | error e =>
              rw [hi] at h
              simp [Except.bind] at h
          | ok i =>
              rw [hi] at h
              simp only [Except.bind] at h
              cases ha : serialize_arguments args with
              | error e =>
                  rw [ha] at h
                  simp [Except.bind] at h
              | ok a =>
                  rw [ha] at h
                  simp only [Except.bind] at h
                  injection h with h2
                  exact h2.symm

/-- A stream at or under the cap passes through truncation unmodified
(stdout component). -/
theorem handle_output_stdout_le (max : Nat) (stdout stderr : Bytes)
    (h : stdout.length ≤ max) :
    (handle_output_truncation max stdout stderr).1 = stdout := by
  unfold handle_output_truncation
  simp [Nat.not_lt.2 h]

/-- A stream at or under the cap passes through truncation unmodified
(stderr component). -/
theorem handle_output_stderr_le (max : Nat) (stdout stderr : Bytes)
    (h : stderr.length ≤ max) :
    (handle_output_truncation max stdout stderr).2.1 = stderr := by
  unfold handle_output_truncation
  simp [Nat.not_lt.2 h]

/-- The subprocess tuple of a completed run carries the return code
unchanged. -/
theorem execute_subprocess_completed_returncode (rc : Int) (out err : Bytes) :
    (execute_subprocess (.completed rc out err)).1 = rc := by
  unfold execute_subprocess
  by_cases h : rc < 0 <;> simp [h]

/-- The subprocess tuple of a completed run carries stdout unchanged. -/
theorem execute_subprocess_completed_stdout (rc : Int) (out err : Bytes) :
    (execute_subprocess (.completed rc out err)).2.1 = out := by
  unfold execute_subprocess
  by_cases h : rc < 0 <;> simp [h]

/-- The subprocess tuple of a completed run carries stderr unchanged. -/
theorem execute_subprocess_completed_stderr (rc : Int) (out err : Bytes) :
    (execute_subprocess (.completed rc out err)).2.2.1 = err := by
  unfold execute_subprocess
  by_cases h : rc < 0 <;> simp [h]

/-- The Timeout marker bytes sit at the end of the stderr produced by the
timeout branch. -/
theorem timeoutBytes_infix_append (x : Bytes) :
    containsSub (x ++ strBytes "\nTimeout") timeoutBytes = true := by
  refine (containsSub_eq_true_iff _ _).2 ?_
  have hsfx : strBytes "\nTimeout" = (10 : Nat) :: timeoutBytes := rfl
  rw [hsfx, show x ++ ((10 : Nat) :: timeoutBytes) = (x ++ [10]) ++ timeoutBytes
    by simp]
  exact (List.suffix_append _ _).isInfix

/-- C2 (code): `ScriptExecutor.execute` contains no tool-use policy step:
no invocation, whatever the skill's `allowed_tools`, ever produces a
`ToolRestrictionError`; at the failing input of the repository's own tests
(skill `restricted-skill` with `allowed_tools = [Read, Write]` and a valid
`scripts/blocked.py`) the subprocess is spawned and its result returned. -/
theorem execute_never_raises_tool_restriction :
    (∀ (cfg : ScriptExecutor) (fs : FS) (sp : ScriptPath)
        (args : Option String) (b : List String) (meta : SkillMetadata)
        (env : List (String × String)) (ver : String)
        (outcome : SubprocessOutcome),
      raisesToolRestriction (execute cfg fs sp args b meta env ver outcome) =
        false) ∧
    execute {} plainFS (.relative ["scripts", "blocked.py"])
        (some "\x7b\"test\": \"data\"\x7d") ["skills"]
        { name := "restricted-skill", description := "",
          skill_path := ["skills", "SKILL.md"],
          allowed_tools := ["Read", "Write"] }
        [] "0.1.0" (.completed 0 (strBytes "ok") []) =
      .ok { stdout := strBytes "ok", stderr := [], exit_code := 0,
            script_path := ["skills", "scripts", "blocked.py"] } := by
  constructor
  · intro cfg fs sp args b meta env ver outcome
    have hexe : execute cfg fs sp args b meta env ver outcome =
        (validate_script_path fs sp b).bind (fun v =>
          (check_permissions fs v).bind (fun _ =>
            (resolve_interpreter fs v).bind (fun _ =>
              (serialize_arguments args).bind (fun _ =>
                Except.ok (assembleResult cfg v outcome))))) := rfl
    rw [hexe]
    cases hv : validate_script_path fs sp b with
    | error e =>
        have hs := validate_error_shape fs sp b e hv
        cases e <;>
          simp_all [raisesToolRestriction, ExecError.isToolRestrictionErr,
            Except.bind]
    | ok v =>
        simp only [Except.bind]
        cases hp : check_permissions fs v with
        | error e =>
            have hs := check_permissions_error_shape fs v e hp
            cases e <;>
              simp_all [raisesToolRestriction, ExecError.isToolRestrictionErr]
        | ok u =>
            simp only [Except.bind]
            cases hi : resolve_interpreter fs v with
            | error e =>
                have hs := resolve_interpreter_error_shape fs v e hi
                cases e <;>
                  simp_all [raisesToolRestriction,
                    ExecError.isToolRestrictionErr]
            | ok i =>
                simp only [Except.bind]
                cases ha : serialize_arguments args with
                | error e =>
                    have hs := serialize_arguments_error_shape args e ha
                    cases e <;>
                      simp_all [raisesToolRestriction,
                        ExecError.isToolRestrictionErr]
                | ok a =>
                    simp [Except.bind, raisesToolRestriction]
  · rfl

/-- C4 counterexample: a script that completes normally (no timeout expiry)
but itself exits with code 124 after printing `Timeout` to stderr is
classified by the derived `timeout` property as a timeout, contradicting
"for every script that completes before the timeout, the timeout property
is false regardless of its exit code". -/
theorem result_timeout_counterexample :
    execute {} plainFS (.relative ["scripts", "x.py"]) (some "\x7b\x7d")
        ["skills"]
        { name := "s", description := "", skill_path := ["skills", "SKILL.md"] }
        [] "0.1.0" (.completed 124 [] (strBytes "Timeout")) =
      .ok { stdout := [], stderr := strBytes "Timeout", exit_code := 124,
            script_path := ["skills", "scripts", "x.py"] } ∧
    ScriptExecutionResult.timedout
      { stdout := [], stderr := strBytes "Timeout", exit_code := 124,
        script_path := ["skills", "scripts", "x.py"] } = true :=
  ⟨rfl, rfl⟩

/-- C4 (amended): on timeout expiry the executor forces exit code 124 and
appends the literal `"\nTimeout"` to the captured stderr before truncation,
so whenever the partial streams fit the output cap the result preserves
them, has exit code 124 and satisfies the derived `timeout` property; for a
script that completes before the timeout, `timeout` holds exactly when the
script itself exited with code 124 and wrote `Timeout` to stderr. -/
theorem execute_timeout_classification (cfg : ScriptExecutor) (fs : FS)
    (sp : ScriptPath) (args : Option String) (b : List String)
    (meta : SkillMetadata) (env : List (String × String)) (ver : String) :
    (∀ (pout perr : Option Bytes) (r : ScriptExecutionResult),
      execute cfg fs sp args b meta env ver (.timedOut pout perr) = .ok r →
      ((perr.getD []).length + (strBytes "\nTimeout").length ≤
          cfg.max_output_size →
        r.exit_code = 124 ∧
        r.stderr = (perr.getD []) ++ strBytes "\nTimeout" ∧
        r.timedout = true) ∧
      ((pout.getD []).length ≤ cfg.max_output_size →
        r.stdout = pout.getD [])) ∧
    (∀ (rc : Int) (out err : Bytes) (r : ScriptExecutionResult),
      execute cfg fs sp args b meta env ver (.completed rc out err) = .ok r →
      err.length ≤ cfg.max_output_size →
      (r.timedout = true ↔ rc = 124 ∧ containsSub err timeoutBytes = true)) := by
  constructor
  · intro pout perr r h
    obtain ⟨v, hv, rfl⟩ :=
      execute_ok_shape cfg fs sp args b meta env ver (.timedOut pout perr) r h
    constructor
    · intro hlen
      have hstderr : (assembleResult cfg v (.timedOut pout perr)).stderr =
          (perr.getD []) ++ strBytes "\nTimeout" := by
        show (handle_output_truncation cfg.max_output_size (pout.getD [])
            ((perr.getD []) ++ strBytes "\nTimeout")).2.1 = _
        exact handle_output_stderr_le _ _ _ (by simp [List.length_append]; omega)
      refine ⟨rfl, hstderr, ?_⟩
      show ((assembleResult cfg v (.timedOut pout perr)).exit_code == 124 &&
        containsSub (assembleResult cfg v (.timedOut pout perr)).stderr
          timeoutBytes) = true
      rw [hstderr]
      simp [timeoutBytes_infix_append]
      rfl
    · intro hlen
      show (handle_output_truncation cfg.max_output_size (pout.getD [])
          ((perr.getD []) ++ strBytes "\nTimeout")).1 = _
      exact handle_output_stdout_le _ _ _ hlen
  · intro rc out err r h hlen
    obtain ⟨v, hv, rfl⟩ :=
      execute_ok_shape cfg fs sp args b meta env ver (.completed rc out err) r h
    have hstderr : (assembleResult cfg v (.completed rc out err)).stderr = err := by
      have heq : (assembleResult cfg v (.completed rc out err)).stderr =
          (handle_output_truncation cfg.max_output_size
            (execute_subprocess (.completed rc out err)).2.1
            (execute_subprocess (.completed rc out err)).2.2.1).2.1 := rfl
      rw [heq, execute_subprocess_completed_stderr]
      exact handle_output_stderr_le _ _ _ hlen
    have hcode : (assembleResult cfg v (.completed rc out err)).exit_code = rc := by
      have heq : (assembleResult cfg v (.completed rc out err)).exit_code =
          (execute_subprocess (.completed rc out err)).1 := rfl
      rw [heq, execute_subprocess_completed_returncode]
    show ((assembleResult cfg v (.completed rc out err)).exit_code == 124 &&
      containsSub (assembleResult cfg v (.completed rc out err)).stderr
        timeoutBytes) = true ↔ _
    rw [hstderr, hcode]
    simp [Bool.and_eq_true, beq_iff_eq]

/-- Witness for C4's amended claim: a concrete timed-out run with partial
output `partial`/`err` keeps both streams, exits 124 and is classified as a
timeout. -/
theorem execute_timeout_classification_witness :
    ScriptExecutionResult.timedout
      { stdout := strBytes "partial",
        stderr := strBytes "err" ++ strBytes "\nTimeout", exit_code := 124,
        script_path := ["skills", "scripts", "x.py"] } = true :=
  (((execute_timeout_classification {} plainFS (.relative ["scripts", "x.py"])
      (some "\x7b\x7d") ["skills"]
      { name := "s", description := "", skill_path := ["skills", "SKILL.md"] }
      [] "0.1.0").1 (some (strBytes "partial")) (some (strBytes "err"))
      { stdout := strBytes "partial",
        stderr := strBytes "err" ++ strBytes "\nTimeout", exit_code := 124,
        script_path := ["skills", "scripts", "x.py"] } rfl).1
    (by decide)).2.2

/-- C10: every result produced through the executor's timeout branch has no
signal name and no signal number, so the derived `signaled` property is
false: a result is never classified as both a timeout kill and a signal
termination. -/
theorem timeout_branch_not_signaled (cfg : ScriptExecutor) (fs : FS)
    (sp : ScriptPath) (args : Option String) (b : List String)
    (meta : SkillMetadata) (env : List (String × String)) (ver : String)
    (pout perr : Option Bytes) (r : ScriptExecutionResult)
    (h : execute cfg fs sp args b meta env ver (.timedOut pout perr) = .ok r) :
    r.signal = none ∧ r.signal_number = none ∧ r.signaled = false := by
  obtain ⟨v, hv, rfl⟩ :=
    execute_ok_shape cfg fs sp args b meta env ver (.timedOut pout perr) r h
  exact ⟨rfl, rfl, rfl⟩

/-- Witness for C10 at a concrete timed-out execution. -/
theorem timeout_branch_not_signaled_witness :
    ScriptExecutionResult.signaled
      { stdout := [], stderr := strBytes "\nTimeout", exit_code := 124,
        script_path := ["skills", "scripts", "x.py"] } = false :=
  (timeout_branch_not_signaled {} plainFS (.relative ["scripts", "x.py"])
    (some "\x7b\x7d") ["skills"]
    { name := "s", description := "", skill_path := ["skills", "SKILL.md"] }
    [] "0.1.0" none none
    { stdout := [], stderr := strBytes "\nTimeout", exit_code := 124,
      script_path := ["skills", "scripts", "x.py"] } rfl).2.2

end Skillkit
